import Mathlib

/-!
Shallow embedding of `src/pybass3/pys2_playlist.py` (class `Pys2Playlist`).

Side effects (Qt signal emissions, Track-handle calls such as `play`, `stop`,
`free_stream`, `move2position_seconds`, and ticker start/stop) are recorded as
an explicit event trace; the mutable object state is threaded explicitly.

The base class `Playlist` (file `playlist.py`) is not among the sources; the
parts of it that the claims need (queue resolution for `next`/`previous`/
`upcoming`, the base `play`, and the base `add_song`) are modelled from the
spec, each marked `Modelled from the spec:` in its doc comment.
-/

namespace Pybass3

/-- Playback-order modes of the queue (`PlaylistMode` in `playlist.py`):
`sequential`, `random_mode` (spec: "Random"), `loop_single`. -/
inductive PlaylistMode where
  | sequential
  | random_mode
  | loop_single
  deriving DecidableEq, Repr

/-- Snapshot of an external Track handle (`Pys2Song`): its identity and the
playback progress the tick reads (`remaining_bytes`, `remaining_seconds`,
`is_playing`). -/
structure Track where
  id : String
  remaining_bytes : Int
  remaining_seconds : Int
  is_playing : Bool
  deriving DecidableEq, Repr

/-- Observable effects: the Qt signals of `Pys2Playlist` plus the calls made
on Track handles and on the ticker. -/
inductive Event where
  | song_added (id : String)
  | songs_added (start : Int) (ids : List String)
  | song_changed (id : String)
  | music_paused (id : String)
  | music_playing (id : String)
  | music_stopped (id : String)
  | queue_changed
  | ticked
  | track_play (id : String)
  | track_stop (id : String)
  | free_stream (id : String)
  | seek (id : String) (pos : Int)
  | ticker_start
  | ticker_stop
  deriving DecidableEq, Repr

/-- The mutable state of a `Pys2Playlist` object: the queue of tracks, the
cursor `queue_position`, the `play_mode`, the fade window `fade_in`
(seconds; `0` disables fading), the `current` and `fadein_song` references,
whether the ticker runs, the accepted file suffixes `VALID_TYPES`, and an
oracle `rng` standing for the pseudo-random choice of `random_mode`. -/
structure PlaylistState where
  entries : List Track
  queue_position : Nat
  play_mode : PlaylistMode
  fade_in : Int
  current : Option Track
  fadein_song : Option Track
  ticker_running : Bool
  valid_types : List String
  rng : Nat
  deriving DecidableEq, Repr

/-- Modelled from the spec: the base class `Playlist` (file `playlist.py`,
absent from the sources) resolves the "next" track.  Following section 4.1,
`Sequential` "returns entry at queue_position+1 if it exists, else None";
`LoopSingle` "returns the entry at queue_position unchanged"; `Random`
"returns a pseudo-randomly selected entry distinct from queue_position when
len(entries) > 1" (the choice is drawn from the `rng` oracle; the spec leaves
the one-entry case open, modelled as `none`).  Per sections 4.1/4.2 the
resolution is pure: the engine tick, not the queue, advances
`queue_position`.  This also models the base property `upcoming`. -/
def queue_next (s : PlaylistState) : Option Track :=
  match s.play_mode with
  | PlaylistMode.sequential => s.entries.get? (s.queue_position + 1)
  | PlaylistMode.loop_single => s.entries.get? s.queue_position
  | PlaylistMode.random_mode =>
      if s.entries.length > 1 then
        let i := s.rng % s.entries.length
        s.entries.get?
          (if i = s.queue_position then (i + 1) % s.entries.length else i)
      else none

/-- Modelled from the spec: base-class resolution of the "previous" track,
"symmetric to next for Sequential/Random; for LoopSingle, returns the same
entry" (section 4.1), again pure. -/
def queue_previous (s : PlaylistState) : Option Track :=
  match s.play_mode with
  | PlaylistMode.sequential =>
      if s.queue_position = 0 then none
      else s.entries.get? (s.queue_position - 1)
  | PlaylistMode.loop_single => s.entries.get? s.queue_position
  | PlaylistMode.random_mode =>
      if s.entries.length > 1 then
        let i := s.rng % s.entries.length
        s.entries.get?
          (if i = s.queue_position then (i + 1) % s.entries.length else i)
      else none

/-- `Pys2Playlist.next` (source lines 156-163): resolve via the base class;
if a track was resolved, emit `song_changed`; return the result. -/
def pys2_next (s : PlaylistState) : PlaylistState × Option Track × List Event :=
  match queue_next s with
  | some t => (s, some t, [Event.song_changed t.id])
  | none => (s, none, [])

/-- `Pys2Playlist.previous` (source lines 149-154): resolve via the base
class; if a track was resolved, emit `song_changed`.  The source method has
no return statement, so the call returns `None` in every case. -/
def pys2_previous (s : PlaylistState) : PlaylistState × Option Track × List Event :=
  match queue_previous s with
  | some t => (s, none, [Event.song_changed t.id])
  | none => (s, none, [])

/-- `Pys2Playlist.tick` (source lines 166-207), one invocation of the timer
callback.  Branch order mirrors the source: the `current is None` early
return (which stops the ticker and does NOT reach `ticked.emit()`), the
loop-single repeat branch, the fade branch (completion / begin / silent
fall-through), the end-of-track branch (which calls `self.next()`, the
`Pys2Playlist` override above), the silent else; then `ticked.emit()`. -/
def tick (s : PlaylistState) : PlaylistState × List Event :=
  match s.current with
  | none => ({ s with ticker_running := false }, [Event.ticker_stop])
  | some cur =>
    let remaining := cur.remaining_bytes
    let remaining_seconds := cur.remaining_seconds
    if s.play_mode = PlaylistMode.loop_single ∧ remaining ≤ 0 then
      (s, [Event.seek cur.id 0, Event.song_changed cur.id, Event.ticked])
    else if s.fade_in > 0 ∧ remaining_seconds ≤ s.fade_in then
      match s.fadein_song with
      | some f =>
        if remaining ≤ 0 then
          ({ s with current := some f, fadein_song := none,
                    queue_position := s.queue_position + 1 },
            [Event.track_stop cur.id, Event.free_stream cur.id,
             Event.song_changed f.id, Event.ticked])
        else (s, [Event.ticked])
      | none =>
        match queue_next s with
        | some u =>
            ({ s with fadein_song := some u },
              [Event.track_play u.id, Event.ticked])
        | none => (s, [Event.ticked])
    else if remaining ≤ 0 then
      match pys2_next s with
      | (s1, some t, evs) =>
          ({ s1 with current := some t, queue_position := s1.queue_position + 1 },
            [Event.track_stop cur.id, Event.free_stream cur.id] ++ evs ++
              [Event.track_play t.id, Event.song_changed t.id, Event.ticked])
      | (s1, none, evs) =>
          ({ s1 with current := none },
            [Event.track_stop cur.id, Event.free_stream cur.id] ++ evs ++
              [Event.ticked])
    else (s, [Event.ticked])

/-- Modelled from the spec: the base `Playlist.play` (section 4.3): "if no
current track, set current to the Queue's track at queue_position ... and
mark it playing; else resume the existing current track"; an empty or
out-of-range queue is a no-op (`EmptyQueue` is "None/no-op", section 7). -/
def base_play (s : PlaylistState) : PlaylistState :=
  match s.current with
  | some c => { s with current := some { c with is_playing := true } }
  | none =>
    match s.entries.get? s.queue_position with
    | some t => { s with current := some { t with is_playing := true } }
    | none => s

/-- `Pys2Playlist.play` (source lines 92-105): remember whether there was no
current track (`new_song`), call the base `play`, and then: if a current
track exists and is playing, emit `music_playing` and start the ticker; if
`new_song` and a current track exists, emit `song_changed`. -/
def pys2_play (s : PlaylistState) : PlaylistState × List Event :=
  let new_song := s.current.isNone
  let s1 := base_play s
  let playing_events :=
    match s1.current with
    | some c => if c.is_playing then [Event.music_playing c.id, Event.ticker_start] else []
    | none => []
  let s2 :=
    match s1.current with
    | some c => if c.is_playing then { s1 with ticker_running := true } else s1
    | none => s1
  let changed_events :=
    if new_song then
      match s2.current with
      | some c => [Event.song_changed c.id]
      | none => []
    else []
  (s2, playing_events ++ changed_events)

/-- A file path as the import code sees it: the path string and its suffix
(extension), checked against `VALID_TYPES`. -/
structure SongPath where
  path : String
  suffix : String
  deriving DecidableEq, Repr

/-- Modelled from the spec: the base `Playlist.add_song` (section 4.1 `add`):
"appends; fails with DuplicateId if identity already present. No side effect
on current playback."  It builds a Track for the path (identity derived from
the path), appends it to the queue and returns it; a duplicate identity
yields no track (surfaced as `none`, matching the caller's
`song is not None` check). -/
def base_add_song (s : PlaylistState) (p : SongPath) : PlaylistState × Option Track :=
  if (s.entries.map Track.id).contains p.path then (s, none)
  else
    let t : Track := { id := p.path, remaining_bytes := 0, remaining_seconds := 0,
                       is_playing := false }
    ({ s with entries := s.entries ++ [t] }, some t)

/-- `Pys2Playlist.add_song` (source lines 47-53): call the base `add_song`;
if `supress_emit` is `False` and a song was created, emit `song_added`. -/
def add_song (s : PlaylistState) (p : SongPath) (supress_emit : Bool) :
    PlaylistState × Option Track × List Event :=
  let r := base_add_song s p
  match r.2 with
  | some t =>
      (r.1, some t, if supress_emit = false then [Event.song_added t.id] else [])
  | none => (r.1, none, [])

mutual
/-- A directory as `add_directory` walks it: its music-candidate files and
its subdirectories (the external `iterdir` results). -/
inductive DirTree where
  | node (files : List SongPath) (subdirs : DirForest)

/-- A list of subdirectories. -/
inductive DirForest where
  | nil
  | cons (d : DirTree) (ds : DirForest)
end

/-- The `for song_path in files` loop of `add_directory` (source lines
71-77): add each song with the given `surpress_emit`, collecting the ids of
the songs that were created. -/
def add_files (s : PlaylistState) (files : List SongPath) (surpress_emit : Bool) :
    PlaylistState × List String × List Event :=
  match files with
  | [] => (s, [], [])
  | p :: rest =>
    let r := add_song s p surpress_emit
    let r2 := add_files r.1 rest surpress_emit
    (r2.1,
      (match r.2.1 with | some t => [t.id] | none => []) ++ r2.2.1,
      r.2.2 ++ r2.2.2)

mutual
/-- `Pys2Playlist.add_directory` (source lines 55-88): filter the
directory's files by `VALID_TYPES`; compute `index_position` (`-1` unless
`top`, else `len(self)+1`); add the files; if `recurse`, recurse into each
subdirectory — the recursive call passes only `(fdir, recurse)`, so it runs
with the defaults `top = False` and `surpress_emit = True`; finally, if
`top` and `surpress_emit`, emit the aggregate `songs_added`.  Returns
`(index_position, song_ids)` with the event trace. -/
def add_directory (s : PlaylistState) (d : DirTree)
    (recurse top surpress_emit : Bool) :
    PlaylistState × Int × List String × List Event :=
  match d with
  | DirTree.node files subdirs =>
    let filtered := files.filter (fun f => s.valid_types.contains f.suffix)
    let index_position : Int :=
      if top = false then -1 else (s.entries.length : Int) + 1
    let r := add_files s filtered surpress_emit
    let r2 := if recurse then add_subdirs r.1 subdirs recurse else (r.1, [], [])
    let song_ids := r.2.1 ++ r2.2.1
    (r2.1, index_position, song_ids,
      r.2.2 ++ r2.2.2 ++
        (if top && surpress_emit then
          [Event.songs_added index_position song_ids] else []))

/-- The `for fdir in dirs` loop of `add_directory` (source lines 80-83):
each subdirectory is processed by `self.add_directory(fdir, recurse)`,
i.e. with `top = False`, `surpress_emit = True`. -/
def add_subdirs (s : PlaylistState) (ds : DirForest) (recurse : Bool) :
    PlaylistState × List String × List Event :=
  match ds with
  | DirForest.nil => (s, [], [])
  | DirForest.cons d rest =>
    let r := add_directory s d recurse false true
    let r2 := add_subdirs r.1 rest recurse
    (r2.1, r.2.2.1 ++ r2.2.1, r.2.2.2 ++ r2.2.2)
end

/-- Recognizer for `song_changed` events. -/
def isSongChanged : Event → Bool
  | Event.song_changed _ => true
  | _ => false

/-- Recognizer for `ticked` events. -/
def isTicked : Event → Bool
  | Event.ticked => true
  | _ => false

/-- Recognizer for `music_playing` events. -/
def isMusicPlaying : Event → Bool
  | Event.music_playing _ => true
  | _ => false

/-- Recognizer for `song_added` events. -/
def isSongAdded : Event → Bool
  | Event.song_added _ => true
  | _ => false

/-- Recognizer for aggregate `songs_added` events. -/
def isSongsAdded : Event → Bool
  | Event.songs_added _ _ => true
  | _ => false

/-- Recognizer for `free_stream` calls on the track with identity `x`. -/
def isFreeOf (x : String) : Event → Bool
  | Event.free_stream y => y = x
  | _ => false

/-- Whether the state holds a reference (as `current` or `fadein_song`) to a
track with identity `x`. -/
def refsId (s : PlaylistState) (x : String) : Bool :=
  (match s.current with | some t => t.id = x | none => false) ||
  (match s.fadein_song with | some t => t.id = x | none => false)

/-- Statement bundle for one directory: across a call on it, the aggregate
`songs_added` is emitted exactly when `top` and `surpress_emit` are both
true, and a call with `surpress_emit` true emits no per-song `song_added`
at all. -/
def DirProp (d : DirTree) : Prop :=
  (∀ s r t sup,
    (add_directory s d r t sup).2.2.2.countP isSongsAdded
      = if t && sup then 1 else 0) ∧
  (∀ s r t, (add_directory s d r t true).2.2.2.countP isSongAdded = 0)

/-- Statement bundle for a forest of subdirectories: their processing (which
runs with `top = False` and `surpress_emit = True`) emits neither aggregate
`songs_added` nor per-song `song_added` events. -/
def ForestProp (fo : DirForest) : Prop :=
  ∀ s r,
    (add_subdirs s fo r).2.2.countP isSongsAdded = 0 ∧
    (add_subdirs s fo r).2.2.countP isSongAdded = 0

/-! Concrete fixtures: a two-track queue as in the spec's Scenario A
(`T1` exhausted, `T2` upcoming), and variants used to exercise the
branches of `tick`. -/

/-- A track that has reached its end (remaining data and time both 0). -/
def trackA : Track :=
  { id := "t1", remaining_bytes := 0, remaining_seconds := 0, is_playing := true }

/-- A track with data left. -/
def trackB : Track :=
  { id := "t2", remaining_bytes := 100, remaining_seconds := 3, is_playing := false }

/-- Scenario A state: sequential, fade disabled, `current = trackA` just
exhausted, `trackB` next in the queue. -/
def stateA : PlaylistState :=
  { entries := [trackA, trackB], queue_position := 0,
    play_mode := PlaylistMode.sequential, fade_in := 0, current := some trackA,
    fadein_song := none, ticker_running := true, valid_types := [".mp3"], rng := 0 }

/-- A tick arriving with no current track. -/
def stateIdle : PlaylistState := { stateA with current := none }

/-- Loop-single state whose fade window is active and whose fade-in slot is
occupied while `current` is exhausted. -/
def stateC3 : PlaylistState :=
  { stateA with play_mode := PlaylistMode.loop_single, fade_in := 1,
                fadein_song := some trackB }

/-- Loop-single state whose fade window is active, fade-in slot empty,
`current` exhausted. -/
def stateC4 : PlaylistState :=
  { stateA with play_mode := PlaylistMode.loop_single, fade_in := 1 }

/-- Sequential state with an active fade window and an empty fade-in slot. -/
def stateFade : PlaylistState := { stateA with fade_in := 1 }

/-- Sequential state with an active fade window and an occupied fade-in
slot (`trackB`), `current` exhausted: the crossfade-completion state. -/
def stateFadeSet : PlaylistState :=
  { stateA with fade_in := 1, fadein_song := some trackB }

/-- Sequential state with the cursor on the second entry, so that a
"previous" track resolves. -/
def statePrev : PlaylistState := { stateA with queue_position := 1 }

/-- A music file inside a subdirectory. -/
def path1 : SongPath := { path := "sub.mp3", suffix := ".mp3" }

/-- An empty playlist accepting `.mp3` files. -/
def state10 : PlaylistState := { stateA with entries := [], current := none }

/-- A directory containing no direct music files and one subdirectory that
contains one music file. -/
def dir10 : DirTree :=
  DirTree.node [] (DirForest.cons (DirTree.node [path1] DirForest.nil) DirForest.nil)

/-! Helper lemmas. -/

/-- `Pys2Playlist.next` leaves the state unchanged, returns the queue
resolution, and emits `song_changed` exactly when a track resolved. -/
theorem pys2_next_eq (s : PlaylistState) :
    pys2_next s = (s, queue_next s,
      match queue_next s with
      | some t => [Event.song_changed t.id]
      | none => []) := by
  unfold pys2_next
  cases queue_next s <;> rfl

/-- `Pys2Playlist.play` on a state whose current track is already playing:
the base `play` resumes (a no-op here), `music_playing` is emitted and the
ticker started; no `song_changed` is emitted (`new_song` is false). -/
theorem pys2_play_resume (s : PlaylistState) (c : Track)
    (hc : s.current = some c) (hp : c.is_playing = true) :
    pys2_play s = ({ s with current := some c, ticker_running := true },
      [Event.music_playing c.id, Event.ticker_start]) := by
  have hc2 : ({ c with is_playing := true } : Track) = c := by
    cases c
    simp_all
  unfold pys2_play base_play
  simp only [hc, hc2]
  simp [hp]

/-- Characterization of `add_song`: a duplicate path adds nothing and emits
nothing; otherwise the song is appended and `song_added` is emitted exactly
when `supress_emit` is false. -/
theorem add_song_eq (s : PlaylistState) (p : SongPath) (sup : Bool) :
    add_song s p sup =
      if (s.entries.map Track.id).contains p.path then (s, none, [])
      else
        ({ s with entries := s.entries ++
            [{ id := p.path, remaining_bytes := 0, remaining_seconds := 0,
               is_playing := false }] },
          some { id := p.path, remaining_bytes := 0, remaining_seconds := 0,
                 is_playing := false },
          if sup = false then [Event.song_added p.path] else []) := by
  unfold add_song base_add_song
  split_ifs <;> rfl

/-- The file loop never emits an aggregate `songs_added`. -/
theorem add_files_agg (files : List SongPath) :
    ∀ s sup, ((add_files s files sup).2.2).countP isSongsAdded = 0 := by
  induction files with
  | nil => intro s sup; rfl
  | cons p rest ih =>
    intro s sup
    simp only [add_files]
    rw [add_song_eq]
    split_ifs <;> dsimp only <;>
      simp only [List.nil_append, List.countP_append, List.countP_cons,
        List.countP_nil, isSongsAdded, ih]
    all_goals simp

/-- With `supress_emit` true the file loop emits nothing at all. -/
theorem add_files_silent (files : List SongPath) :
    ∀ s, (add_files s files true).2.2 = ([] : List Event) := by
  induction files with
  | nil => intro s; rfl
  | cons p rest ih =>
    intro s
    simp only [add_files]
    rw [add_song_eq]
    split_ifs <;> simp_all

/-- With `supress_emit` false the file loop emits exactly one `song_added`
per id it returns. -/
theorem add_files_emit_count (files : List SongPath) :
    ∀ s, ((add_files s files false).2.2).countP isSongAdded
      = (add_files s files false).2.1.length := by
  induction files with
  | nil => intro s; rfl
  | cons p rest ih =>
    intro s
    simp only [add_files]
    rw [add_song_eq]
    split_ifs <;>
      simp_all [isSongAdded, List.countP_append, List.countP_cons]

/-- Node case of the mutual induction for `DirProp`/`ForestProp`. -/
theorem dirProp_node (files : List SongPath) (subdirs : DirForest)
    (ih : ForestProp subdirs) : DirProp (DirTree.node files subdirs) := by
  constructor
  · intro s r t sup
    have h1 := fun s r => (ih s r).1
    simp only [add_directory]
    cases r <;> cases t <;> cases sup <;>
      simp [add_files_agg, h1, isSongsAdded, List.countP_append,
        List.countP_cons]
  · intro s r t
    have h2 := fun s r => (ih s r).2
    simp only [add_directory]
    cases r <;> cases t <;>
      simp [add_files_silent, h2, isSongAdded, List.countP_append,
        List.countP_cons]

/-- Nil case of the mutual induction. -/
theorem forestProp_nil : ForestProp DirForest.nil := by
  intro s r
  exact ⟨rfl, rfl⟩

/-- Cons case of the mutual induction: the head directory runs with
`top = False`, `surpress_emit = True`, so it contributes no events of
either kind. -/
theorem forestProp_cons (d : DirTree) (ds : DirForest)
    (ih1 : DirProp d) (ih2 : ForestProp ds) :
    ForestProp (DirForest.cons d ds) := by
  intro s r
  have ha := ih1.1 s r false true
  have hb := ih1.2 s r false
  simp only [Bool.false_and, if_neg (by simp : ¬ (false && true) = true)] at ha
  constructor
  · simp only [add_subdirs]
    simp [List.countP_append, (ih2 _ _).1, ha]
  · simp only [add_subdirs]
    simp [List.countP_append, (ih2 _ _).2, hb]

/-- Every directory tree satisfies `DirProp`, by the mutual recursor. -/
theorem dirProp_all (d : DirTree) : DirProp d :=
  @DirTree.rec DirProp ForestProp dirProp_node forestProp_nil forestProp_cons d

/-- Every forest satisfies `ForestProp`, by the mutual recursor. -/
theorem forestProp_all (fo : DirForest) : ForestProp fo :=
  @DirForest.rec DirProp ForestProp dirProp_node forestProp_nil forestProp_cons fo

/-! Claim theorems. -/

/-- C1, counterexample: on the Scenario A tick (sequential, fade disabled,
`current` exhausted, a next track present), `song_changed` is emitted twice
— once inside the `self.next()` call and once by the tick itself — refuting
"at most once per tick" and "exactly one TrackChanged". -/
theorem C1_counterexample :
    (tick stateA).2.countP isSongChanged = 2 ∧
      ¬ ((tick stateA).2.countP isSongChanged ≤ 1) := by decide

/-- C2, counterexample: a tick arriving with `current = None` returns
before `ticked.emit()`, so no `ticked` notification is emitted, refuting
"emitted exactly once ... including the branch where current is None". -/
theorem C2_counterexample :
    stateIdle.current = none ∧ (tick stateIdle).2.countP isTicked = 0 ∧
      ¬ ((tick stateIdle).2.countP isTicked = 1) := by decide

/-- C3, counterexample: in `stateC3` every condition of the claim holds
(fade window active, `fading_in` set, `current`'s remaining data `≤ 0`),
yet because the play mode is `loop_single` the repeat branch takes the
tick: `fading_in` is not cleared, `current` is not replaced and
`queue_position` does not advance. -/
theorem C3_counterexample :
    stateC3.fade_in > 0 ∧ stateC3.current = some trackA ∧
      trackA.remaining_seconds ≤ stateC3.fade_in ∧
      stateC3.fadein_song = some trackB ∧ trackA.remaining_bytes ≤ 0 ∧
      (tick stateC3).1.fadein_song = some trackB ∧
      (tick stateC3).1.current = some trackA ∧
      (tick stateC3).1.queue_position = stateC3.queue_position := by decide

/-- C4, counterexample: in `stateC4` every condition of the claim holds
(fade window active, `fading_in` unset, a next track available), yet
because the play mode is `loop_single` and `current`'s remaining data is
`≤ 0` the repeat branch takes the tick: `fading_in` stays unset and a
`song_changed` notification IS emitted. -/
theorem C4_counterexample :
    stateC4.fade_in > 0 ∧ stateC4.current = some trackA ∧
      trackA.remaining_seconds ≤ stateC4.fade_in ∧
      stateC4.fadein_song = none ∧ queue_next stateC4 = some trackA ∧
      (tick stateC4).1.fadein_song = none ∧
      (tick stateC4).2.countP isSongChanged = 1 := by decide

/-- C1, amended: on every tick, `song_changed` is emitted at most TWICE
(the end-of-track branch emits it once inside `self.next()` and once
itself) and `queue_position` advances by at most one. -/
theorem C1_amended (s : PlaylistState) :
    (tick s).2.countP isSongChanged ≤ 2 ∧
      (tick s).1.queue_position ≤ s.queue_position + 1 := by
  unfold tick
  cases hc : s.current with
  | none => simp [isSongChanged]
  | some cur =>
    dsimp only
    rw [pys2_next_eq]
    cases hfs : s.fadein_song with
    | none =>
      cases hq : queue_next s with
      | none =>
        dsimp only
        split_ifs <;> constructor <;>
          simp [isSongChanged, List.countP_cons, List.countP_append]
      | some t =>
        dsimp only
        split_ifs <;> constructor <;>
          simp [isSongChanged, List.countP_cons, List.countP_append]
    | some f =>
      cases hq : queue_next s with
      | none =>
        dsimp only
        split_ifs <;> constructor <;>
          simp [isSongChanged, List.countP_cons, List.countP_append]
      | some t =>
        dsimp only
        split_ifs <;> constructor <;>
          simp [isSongChanged, List.countP_cons, List.countP_append]

/-- C2, amended: `ticked` is emitted exactly once on every tick that finds
a current track and never on a tick that finds none; on the latter the tick
stops the ticker (and otherwise leaves the ticker state alone). -/
theorem C2_amended (s : PlaylistState) :
    (tick s).2.countP isTicked = (if s.current.isSome then 1 else 0) ∧
      (tick s).1.ticker_running
        = (if s.current.isSome then s.ticker_running else false) := by
  unfold tick
  cases hc : s.current with
  | none => simp [isTicked]
  | some cur =>
    rw [pys2_next_eq]
    cases hfs : s.fadein_song with
    | none =>
      cases hq : queue_next s with
      | none =>
        dsimp only
        split_ifs <;>
          simp_all [isTicked, List.countP_cons, List.countP_append]
      | some t =>
        dsimp only
        split_ifs <;>
          simp_all [isTicked, List.countP_cons, List.countP_append]
    | some f =>
      cases hq : queue_next s with
      | none =>
        dsimp only
        split_ifs <;>
          simp_all [isTicked, List.countP_cons, List.countP_append]
      | some t =>
        dsimp only
        split_ifs <;>
          simp_all [isTicked, List.countP_cons, List.countP_append]

/-- C3, amended: on any tick where the play mode is NOT `loop_single`, the
fade window is active, `fading_in` is set and `current`'s remaining data is
`≤ 0`, the tick stops `current`, releases its stream, promotes the fade-in
track to `current`, clears `fadein_song`, advances `queue_position` by one
and emits exactly one `song_changed`; the full event list shows no other
branch ran. -/
theorem C3_amended (s : PlaylistState) (c f : Track)
    (hc : s.current = some c) (hm : s.play_mode ≠ PlaylistMode.loop_single)
    (hw : s.fade_in > 0) (ht : c.remaining_seconds ≤ s.fade_in)
    (hf : s.fadein_song = some f) (hr : c.remaining_bytes ≤ 0) :
    (tick s).1.current = some f ∧ (tick s).1.fadein_song = none ∧
      (tick s).1.queue_position = s.queue_position + 1 ∧
      (tick s).2 = [Event.track_stop c.id, Event.free_stream c.id,
        Event.song_changed f.id, Event.ticked] := by
  unfold tick
  simp only [hc]
  rw [if_neg (fun h => hm h.1), if_pos ⟨hw, ht⟩]
  simp only [hf]
  rw [if_pos hr]
  exact ⟨rfl, rfl, rfl, rfl⟩

/-- C3, witness: the crossfade-completion state `stateFadeSet`. -/
theorem C3_witness :
    stateFadeSet.current = some trackA ∧
      stateFadeSet.play_mode ≠ PlaylistMode.loop_single ∧
      stateFadeSet.fade_in > 0 ∧
      trackA.remaining_seconds ≤ stateFadeSet.fade_in ∧
      stateFadeSet.fadein_song = some trackB ∧ trackA.remaining_bytes ≤ 0 ∧
      ((tick stateFadeSet).1.current = some trackB ∧
        (tick stateFadeSet).1.fadein_song = none ∧
        (tick stateFadeSet).1.queue_position = stateFadeSet.queue_position + 1 ∧
        (tick stateFadeSet).2 = [Event.track_stop trackA.id,
          Event.free_stream trackA.id, Event.song_changed trackB.id,
          Event.ticked]) :=
  ⟨by decide, by decide, by decide, by decide, by decide, by decide,
    C3_amended stateFadeSet trackA trackB (by decide) (by decide) (by decide)
      (by decide) (by decide) (by decide)⟩

/-- C4, amended: on any tick where the repeat rule does not fire (the play
mode is not `loop_single` or `current` still has data), the fade window is
active, `fading_in` is unset and the queue resolves a next track, the tick
stores that track in `fadein_song` and starts its playback, leaving
`current` and `queue_position` unchanged and emitting no `song_changed`. -/
theorem C4_amended (s : PlaylistState) (c u : Track)
    (hc : s.current = some c)
    (hrep : ¬ (s.play_mode = PlaylistMode.loop_single ∧ c.remaining_bytes ≤ 0))
    (hw : s.fade_in > 0) (ht : c.remaining_seconds ≤ s.fade_in)
    (hf : s.fadein_song = none) (hu : queue_next s = some u) :
    (tick s).1.current = s.current ∧ (tick s).1.fadein_song = some u ∧
      (tick s).1.queue_position = s.queue_position ∧
      (tick s).2 = [Event.track_play u.id, Event.ticked] := by
  unfold tick
  simp only [hc]
  rw [if_neg hrep, if_pos ⟨hw, ht⟩]
  simp only [hf, hu]
  simp

/-- C4, witness: the fade-begin state `stateFade`. -/
theorem C4_witness :
    stateFade.current = some trackA ∧
      ¬ (stateFade.play_mode = PlaylistMode.loop_single ∧
          trackA.remaining_bytes ≤ 0) ∧
      stateFade.fade_in > 0 ∧ trackA.remaining_seconds ≤ stateFade.fade_in ∧
      stateFade.fadein_song = none ∧ queue_next stateFade = some trackB ∧
      ((tick stateFade).1.current = stateFade.current ∧
        (tick stateFade).1.fadein_song = some trackB ∧
        (tick stateFade).1.queue_position = stateFade.queue_position ∧
        (tick stateFade).2 = [Event.track_play trackB.id, Event.ticked]) :=
  ⟨by decide, by decide, by decide, by decide, by decide, by decide,
    C4_amended stateFade trackA trackB (by decide) (by decide) (by decide)
      (by decide) (by decide) (by decide)⟩

/-- C5: on any tick with `play_mode = loop_single` and `current`'s
remaining data `≤ 0`, the tick seeks `current` to position 0, emits exactly
one `song_changed`, and leaves `current`, `queue_position` and
`fadein_song` unchanged — regardless of the fade conditions, i.e. the
repeat branch has priority. -/
theorem C5_theorem (s : PlaylistState) (c : Track)
    (hc : s.current = some c) (hm : s.play_mode = PlaylistMode.loop_single)
    (hr : c.remaining_bytes ≤ 0) :
    (tick s).1.current = some c ∧ (tick s).1.queue_position = s.queue_position ∧
      (tick s).1.fadein_song = s.fadein_song ∧
      (tick s).2 = [Event.seek c.id 0, Event.song_changed c.id, Event.ticked] := by
  unfold tick
  simp only [hc]
  rw [if_pos ⟨hm, hr⟩]
  exact ⟨hc, rfl, rfl, rfl⟩

/-- C5, witness: the repeat branch fires in `stateC4`, a state where the
fade conditions would also apply, demonstrating its priority. -/
theorem C5_witness :
    stateC4.current = some trackA ∧
      stateC4.play_mode = PlaylistMode.loop_single ∧
      trackA.remaining_bytes ≤ 0 ∧
      ((tick stateC4).1.current = some trackA ∧
        (tick stateC4).1.queue_position = stateC4.queue_position ∧
        (tick stateC4).1.fadein_song = stateC4.fadein_song ∧
        (tick stateC4).2 = [Event.seek trackA.id 0, Event.song_changed trackA.id,
          Event.ticked]) :=
  ⟨by decide, by decide, by decide,
    C5_theorem stateC4 trackA (by decide) (by decide) (by decide)⟩

/-- C6: once `fadein_song` holds a track, a tick either leaves it unchanged
or clears it by promoting that very track to `current`; no tick ever
assigns a different track into an occupied `fadein_song` slot. -/
theorem C6_theorem (s : PlaylistState) (f : Track) (hf : s.fadein_song = some f) :
    (tick s).1.fadein_song = some f ∨
      ((tick s).1.fadein_song = none ∧ (tick s).1.current = some f) := by
  unfold tick
  cases hc : s.current with
  | none => exact Or.inl hf
  | some cur =>
    dsimp only
    rw [pys2_next_eq]
    simp only [hf]
    cases hq : queue_next s with
    | none => split_ifs <;> simp [hf]
    | some t => split_ifs <;> simp [hf]

/-- C6, witness: in `stateC3` the fade-in slot holds `trackB` and the tick
leaves it untouched. -/
theorem C6_witness :
    stateC3.fadein_song = some trackB ∧
      ((tick stateC3).1.fadein_song = some trackB ∨
        ((tick stateC3).1.fadein_song = none ∧
          (tick stateC3).1.current = some trackB)) :=
  ⟨by decide, C6_theorem stateC3 trackB (by decide)⟩

/-- C8, counterexample: calling `play` twice in succession on `stateA`
(whose current track is already playing) emits `music_playing` on EACH
call — two events in total, not one; the `song_changed` count is 0. -/
theorem C8_counterexample :
    stateA.current = some trackA ∧ trackA.is_playing = true ∧
      ((pys2_play stateA).2 ++ (pys2_play (pys2_play stateA).1).2).countP
          isMusicPlaying = 2 ∧
      ¬ (((pys2_play stateA).2 ++ (pys2_play (pys2_play stateA).1).2).countP
          isMusicPlaying = 1) ∧
      ((pys2_play stateA).2 ++ (pys2_play (pys2_play stateA).1).2).countP
          isSongChanged = 0 := by decide

/-- C7: per tick, `free_stream` is invoked on a track identity exactly once
if the tick drops every reference (`current`/`fadein_song`) it held to that
identity, and zero times otherwise — no leak and no double release.  The
hypotheses are the spec's own invariants: the fade-in track and the queue's
next track differ in identity from `current`. -/
theorem C7_theorem (s : PlaylistState) (c : Track) (x : String)
    (hc : s.current = some c)
    (hf : s.fadein_song.all (fun f => f.id != c.id) = true)
    (hn : (queue_next s).all (fun n => n.id != c.id) = true) :
    (tick s).2.countP (isFreeOf x) =
      if refsId s x = true ∧ refsId (tick s).1 x = false then 1 else 0 := by
  unfold tick refsId
  simp only [hc]
  rw [pys2_next_eq]
  cases hfs : s.fadein_song with
  | none =>
    cases hq : queue_next s with
    | none =>
      dsimp only
      split_ifs <;> by_cases hx : c.id = x <;>
        simp_all [isFreeOf, List.countP_cons, List.countP_append]
    | some t =>
      rw [hq, Option.all_some] at hn
      have hnt : t.id ≠ c.id := by simpa using hn
      dsimp only
      split_ifs <;> by_cases hx : c.id = x <;> by_cases hy : t.id = x <;>
        simp_all [isFreeOf, List.countP_cons, List.countP_append]
  | some f =>
    rw [hfs, Option.all_some] at hf
    have hff : f.id ≠ c.id := by simpa using hf
    cases hq : queue_next s with
    | none =>
      dsimp only
      split_ifs <;> by_cases hx : c.id = x <;> by_cases hz : f.id = x <;>
        simp_all [isFreeOf, List.countP_cons, List.countP_append]
    | some t =>
      rw [hq, Option.all_some] at hn
      have hnt : t.id ≠ c.id := by simpa using hn
      dsimp only
      split_ifs <;> by_cases hx : c.id = x <;> by_cases hy : t.id = x <;>
        by_cases hz : f.id = x <;>
        simp_all [isFreeOf, List.countP_cons, List.countP_append]

/-- C7, witness: the Scenario A tick drops `current = trackA` and frees its
stream exactly once. -/
theorem C7_witness :
    stateA.current = some trackA ∧
      stateA.fadein_song.all (fun f => f.id != trackA.id) = true ∧
      (queue_next stateA).all (fun n => n.id != trackA.id) = true ∧
      (tick stateA).2.countP (isFreeOf "t1") =
        (if refsId stateA "t1" = true ∧ refsId (tick stateA).1 "t1" = false
          then 1 else 0) :=
  ⟨by decide, by decide, by decide,
    C7_theorem stateA trackA "t1" (by decide) (by decide) (by decide)⟩

/-- C8, amended: while a current track is already playing, EACH `play()`
call emits one `music_playing` — two calls emit two, not one — and zero
`song_changed`; and `play()` emits `song_changed` exactly on the
transition from no current track to a current track. -/
theorem C8_amended :
    (∀ s c, s.current = some c → c.is_playing = true →
      ((pys2_play s).2 ++ (pys2_play (pys2_play s).1).2).countP
          isMusicPlaying = 2 ∧
      ((pys2_play s).2 ++ (pys2_play (pys2_play s).1).2).countP
          isSongChanged = 0) ∧
    (∀ s, (pys2_play s).2.countP isSongChanged =
      if s.current = none ∧ (pys2_play s).1.current ≠ none then 1 else 0) := by
  constructor
  · intro s c hc hp
    have h1 := pys2_play_resume s c hc hp
    have h2 := pys2_play_resume { s with current := some c, ticker_running := true }
      c rfl hp
    rw [h1]
    rw [h2]
    simp [isMusicPlaying, isSongChanged, List.countP_cons, List.countP_append]
  · intro s
    unfold pys2_play base_play
    cases hc : s.current with
    | some c =>
      simp [hc, isSongChanged, List.countP_cons]
    | none =>
      cases hg : s.entries.get? s.queue_position with
      | none => simp [hc, hg, isSongChanged]
      | some t => simp [hc, hg, isSongChanged, List.countP_cons]

/-- C8, witness: two `play()` calls on `stateA`, whose current track is
already playing. -/
theorem C8_witness :
    stateA.current = some trackA ∧ trackA.is_playing = true ∧
      ((pys2_play stateA).2 ++ (pys2_play (pys2_play stateA).1).2).countP
          isMusicPlaying = 2 ∧
      ((pys2_play stateA).2 ++ (pys2_play (pys2_play stateA).1).2).countP
          isSongChanged = 0 :=
  ⟨by decide, by decide,
    (C8_amended.1 stateA trackA (by decide) (by decide)).1,
    (C8_amended.1 stateA trackA (by decide) (by decide)).2⟩

/-- C9: at `statePrev` the queue resolves a previous track (`trackA`) and
`previous` emits `song_changed` for it, but the method — whose body has no
return statement — returns `None` instead of the resolved track. -/
theorem C9_theorem :
    queue_previous statePrev = some trackA ∧
      (pys2_previous statePrev).2.2 = [Event.song_changed trackA.id] ∧
      (pys2_previous statePrev).2.1 = none := by decide

/-- C10, counterexample: a top-level `add_directory` call with
`surpress_emit = False` and `recurse = True` over a directory whose only
song sits in a subdirectory adds that song (its id is returned) but emits
NO per-song `song_added` event — the recursive call forces
`surpress_emit = True` — and no aggregate `songs_added` either. -/
theorem C10_counterexample :
    (add_directory state10 dir10 true true false).2.2.1 = ["sub.mp3"] ∧
      (add_directory state10 dir10 true true false).2.2.2.countP isSongAdded = 0 ∧
      (add_directory state10 dir10 true true false).2.2.2.countP isSongsAdded
        = 0 := by decide

/-- C10, amended: for every `add_directory` call, the aggregate
`songs_added` is emitted exactly when `top` and `surpress_emit` are both
true; with `surpress_emit = true` no per-song `song_added` is ever emitted;
with `surpress_emit = false` the per-song `song_added` count equals the
number of songs added from the directory's OWN files (recursive subdirectory
calls, which force `surpress_emit = True`, contribute none); and every call
with `top = false` returns `index_position = -1`. -/
theorem C10_amended :
    (∀ s d r t sup,
      (add_directory s d r t sup).2.2.2.countP isSongsAdded
        = if t && sup then 1 else 0) ∧
    (∀ s d r t, (add_directory s d r t true).2.2.2.countP isSongAdded = 0) ∧
    (∀ s files subdirs r t,
      (add_directory s (DirTree.node files subdirs) r t false).2.2.2.countP
          isSongAdded
        = (add_files s (files.filter fun f => s.valid_types.contains f.suffix)
            false).2.1.length) ∧
    (∀ s d r sup, (add_directory s d r false sup).2.1 = -1) := by
  refine ⟨?_, ?_, ?_, ?_⟩
  · intro s d r t sup
    exact (dirProp_all d).1 s r t sup
  · intro s d r t
    exact (dirProp_all d).2 s r t
  · intro s files subdirs r t
    have hs := fun s r => (forestProp_all subdirs s r).2
    simp only [add_directory]
    cases r <;>
      simp [add_files_emit_count, hs, isSongAdded, List.countP_append,
        List.countP_cons]
  · intro s d r sup
    cases d with
    | node files subdirs => simp [add_directory]

end Pybass3
